import Mathlib

/-!
# Verification development for the japikey API-key library

Shallow embedding of the issuance (`createApiKey`, packages/japikey src/sign.ts),
verification (`authenticate` / `shouldAuthenticate` / `createGetJWKS`,
packages/authenticate), URL composition (`appendPathToUrl`, packages/shared
src/util.ts) and error taxonomy (packages/shared src/errors.ts) modules,
together with theorems settling the specification claims about them.

Modelling conventions:
* JavaScript strings are Lean `String`s; the JS string primitives
  (`startsWith`, `endsWith`, `slice`, `length`, `+`) are embedded as the
  character-list operations `strStartsWith`, `strEndsWith`, `strDrop`,
  `strLength`, `++`, which agree with the JS primitives on all inputs
  (the repository only manipulates ASCII URL/claim strings).
* The WHATWG `URL` object is a record of its components; `toString` is its
  serialization (`protocol` keeps the trailing `:` exactly as in JS).
* JSON claim values are the inductive `ClaimValue`; JS numbers that the
  library inspects are integers (`exp`, `iat`), embedded as `Int`.
* The `jose` dependency is embedded by its documented semantics: a signed
  JWT carries a signature object recording exactly the protected header,
  payload and key that produced it; `jwtVerify` succeeds iff the resolved
  key matches the signing key, the header/payload are untampered, the
  algorithm is in the allowed set, and the standard claim checks (numeric
  `iat` when present; numeric `nbf` not in the future when present; numeric
  `exp` strictly after the verification time when present) pass.  Nondeterministic effects of issuance (the fresh UUIDv7 `kid`, the
  fresh key pair, the clock) are inputs of the embedded function (`IssueEnv`).
* Thrown JS exceptions are `Except.error`; `try`/`catch` is the
  corresponding case split.
-/

/-! ## JS string primitives -/

/-- Bool-valued list prefix test (`listIsPfx p l` iff `p` is a prefix of `l`). -/
def listIsPfx : List Char → List Char → Bool
  | [], _ => true
  | _ :: _, [] => false
  | a :: as, b :: bs => a == b && listIsPfx as bs

/-- JS `s.startsWith(p)`. -/
def strStartsWith (s p : String) : Bool := listIsPfx p.data s.data

/-- JS `s.endsWith(p)`. -/
def strEndsWith (s p : String) : Bool := listIsPfx p.data.reverse s.data.reverse

/-- JS `s.slice(n)` (drop the first `n` code units). -/
def strDrop (s : String) (n : Nat) : String := ⟨s.data.drop n⟩

/-- JS `s.length`. -/
def strLength (s : String) : Nat := s.data.length

/-- JS `parseInt(s, 10)` restricted to all-digit strings: the denoted decimal. -/
def parseDigits (l : List Char) : Nat := l.foldl (fun a c => a * 10 + (c.toNat - 48)) 0

/-! ## WHATWG URL objects -/

/-- A parsed WHATWG URL, by components.  `protocol` includes the trailing `:`
(as in JS, e.g. `"https:"`); empty `search`/`hash`/`port`/`username`/`password`
denote absent components, as the JS setters do. -/
structure URL where
  protocol : String
  username : String
  password : String
  hostname : String
  port : String
  pathname : String
  search : String
  hash : String
deriving DecidableEq, Repr

/-- The serialization of everything left of the path: scheme, userinfo,
host and port. -/
def URL.head (u : URL) : String :=
  u.protocol ++ "//" ++
    (if u.username = "" then "" else
      u.username ++ (if u.password = "" then "" else ":" ++ u.password) ++ "@") ++
    u.hostname ++ (if u.port = "" then "" else ":" ++ u.port)

/-- JS `url.toString()` (the href serialization). -/
def URL.toString (u : URL) : String :=
  u.head ++ u.pathname ++ u.search ++ u.hash

/-- packages/shared src/util.ts `appendPathToUrl`: joins a base URL and a
relative path.  `!path` short-circuits on the empty string; otherwise the
copy has its query and fragment cleared, one leading `/` stripped from the
relative path, and the paths joined with exactly one `/`. -/
def appendPathToUrl (base : URL) (path : String) : URL :=
  if path = "" then base
  else
    let normalizedPath := if strStartsWith path "/" then strDrop path 1 else path
    let newPathname :=
      if strEndsWith base.pathname "/" then base.pathname ++ normalizedPath
      else base.pathname ++ "/" ++ normalizedPath
    { base with search := "", hash := "", pathname := newPathname }

/-! ## Error taxonomy (packages/shared src/errors.ts) -/

inductive ErrorType
  | unknown
  | incorrect_usage
  | signing_error
  | malformed_token
  | unauthorized
deriving DecidableEq, Repr

/-- `JapikeyError`: an HTTP status code, a machine-readable kind, and a
message (the `Error.message` the constructor passed to `super`). -/
structure JapikeyError where
  code : Nat
  errorType : ErrorType
  message : String
deriving DecidableEq, Repr

/-- `MalformedTokenError`: note that the constructor ignores its `message`
argument and always passes the fixed string to `super`. -/
def MalformedTokenError (_message : String) : JapikeyError :=
  ⟨401, .malformed_token, "The token is missing or not in the correct format"⟩

def UnauthorizedError (message : String) : JapikeyError :=
  ⟨403, .unauthorized, message⟩

def IncorrectUsageError (message : String) : JapikeyError :=
  ⟨500, .incorrect_usage, message⟩

def SigningError (message : String) : JapikeyError :=
  ⟨500, .signing_error, message⟩

def UnknownError (message : String) : JapikeyError :=
  ⟨500, .unknown, message⟩

/-! ## JSON claim values and JS-object claim maps -/

inductive ClaimValue
  | str (s : String)
  | num (n : Int)
  | bool (b : Bool)
  | null
  | arr (xs : List ClaimValue)
  | obj (fields : List (String × ClaimValue))

/-! Structural (syntactic) equality of JSON values, shown lawful below; it
gives decidable equality of claim values and claim maps. -/

mutual

def cvBeq : ClaimValue → ClaimValue → Bool
  | .str a, .str b => a == b
  | .num a, .num b => a == b
  | .bool a, .bool b => a == b
  | .null, .null => true
  | .arr as, .arr bs => cvBeqList as bs
  | .obj as, .obj bs => cvBeqObj as bs
  | _, _ => false

def cvBeqList : List ClaimValue → List ClaimValue → Bool
  | [], [] => true
  | a :: as, b :: bs => cvBeq a b && cvBeqList as bs
  | _, _ => false

def cvBeqObj : List (String × ClaimValue) → List (String × ClaimValue) → Bool
  | [], [] => true
  | (k, v) :: as, (l, w) :: bs => k == l && cvBeq v w && cvBeqObj as bs
  | _, _ => false

end

mutual

theorem cvBeq_refl : ∀ a : ClaimValue, cvBeq a a = true
  | .str a => by simp [cvBeq]
  | .num a => by simp [cvBeq]
  | .bool a => by simp [cvBeq]
  | .null => rfl
  | .arr as => by simp [cvBeq, cvBeqList_refl as]
  | .obj as => by simp [cvBeq, cvBeqObj_refl as]

theorem cvBeqList_refl : ∀ as : List ClaimValue, cvBeqList as as = true
  | [] => rfl
  | a :: as => by simp [cvBeqList, cvBeq_refl a, cvBeqList_refl as]

theorem cvBeqObj_refl : ∀ as : List (String × ClaimValue), cvBeqObj as as = true
  | [] => rfl
  | (k, v) :: as => by simp [cvBeqObj, cvBeq_refl v, cvBeqObj_refl as]

end

mutual

theorem cvBeq_eq : ∀ a b : ClaimValue, cvBeq a b = true → a = b
  | .str a, .str b => by simp [cvBeq]
  | .num a, .num b => by simp [cvBeq]
  | .bool a, .bool b => by simp [cvBeq]
  | .null, .null => by intro _; rfl
  | .arr as, .arr bs => by
    intro h
    have := cvBeqList_eq as bs (by simpa [cvBeq] using h)
    simp [this]
  | .obj as, .obj bs => by
    intro h
    have := cvBeqObj_eq as bs (by simpa [cvBeq] using h)
    simp [this]
  | .str a, .num b => by simp [cvBeq]
  | .str a, .bool b => by simp [cvBeq]
  | .str a, .null => by simp [cvBeq]
  | .str a, .arr bs => by simp [cvBeq]
  | .str a, .obj bs => by simp [cvBeq]
  | .num a, .str b => by simp [cvBeq]
  | .num a, .bool b => by simp [cvBeq]
  | .num a, .null => by simp [cvBeq]
  | .num a, .arr bs => by simp [cvBeq]
  | .num a, .obj bs => by simp [cvBeq]
  | .bool a, .str b => by simp [cvBeq]
  | .bool a, .num b => by simp [cvBeq]
  | .bool a, .null => by simp [cvBeq]
  | .bool a, .arr bs => by simp [cvBeq]
  | .bool a, .obj bs => by simp [cvBeq]
  | .null, .str b => by simp [cvBeq]
  | .null, .num b => by simp [cvBeq]
  | .null, .bool b => by simp [cvBeq]
  | .null, .arr bs => by simp [cvBeq]
  | .null, .obj bs => by simp [cvBeq]
  | .arr as, .str b => by simp [cvBeq]
  | .arr as, .num b => by simp [cvBeq]
  | .arr as, .bool b => by simp [cvBeq]
  | .arr as, .null => by simp [cvBeq]
  | .arr as, .obj bs => by simp [cvBeq]
  | .obj as, .str b => by simp [cvBeq]
  | .obj as, .num b => by simp [cvBeq]
  | .obj as, .bool b => by simp [cvBeq]
  | .obj as, .null => by simp [cvBeq]
  | .obj as, .arr bs => by simp [cvBeq]

theorem cvBeqList_eq : ∀ as bs : List ClaimValue, cvBeqList as bs = true → as = bs
  | [], [] => by intro _; rfl
  | [], _ :: _ => by simp [cvBeqList]
  | _ :: _, [] => by simp [cvBeqList]
  | a :: as, b :: bs => by
    simp only [cvBeqList, Bool.and_eq_true]
    rintro ⟨h1, h2⟩
    rw [cvBeq_eq a b h1, cvBeqList_eq as bs h2]

theorem cvBeqObj_eq : ∀ as bs : List (String × ClaimValue), cvBeqObj as bs = true → as = bs
  | [], [] => by intro _; rfl
  | [], _ :: _ => by simp [cvBeqObj]
  | _ :: _, [] => by simp [cvBeqObj]
  | (k, v) :: as, (l, w) :: bs => by
    simp only [cvBeqObj, Bool.and_eq_true, beq_iff_eq]
    rintro ⟨⟨h0, h1⟩, h2⟩
    rw [h0, cvBeq_eq v w h1, cvBeqObj_eq as bs h2]

end

instance : DecidableEq ClaimValue := fun a b =>
  if h : cvBeq a b = true then .isTrue (cvBeq_eq a b h)
  else .isFalse (fun he => h (he ▸ cvBeq_refl a))

/-- A JS object used as a claims map: bindings in insertion order, later
bindings shadowing earlier ones (so `a ++ b` is the spread `{...a, ...b}`). -/
abbrev ClaimMap := List (String × ClaimValue)

/-- Property read on a claims map: the value of the last binding of `k`. -/
def getClaim (m : ClaimMap) (k : String) : Option ClaimValue :=
  match m with
  | [] => none
  | (k', v) :: rest =>
    match getClaim rest k with
    | some v' => some v'
    | none => if k' = k then some v else none

/-! ## String-primitive lemmas -/

theorem listIsPfx_nil (l : List Char) : listIsPfx [] l = true := rfl

theorem listIsPfx_self_append (l m : List Char) : listIsPfx l (l ++ m) = true := by
  induction l with
  | nil => rfl
  | cons a as ih => simp [listIsPfx, ih]

theorem string_data_append (a b : String) : (a ++ b).data = a.data ++ b.data := rfl

theorem string_append_assoc (a b c : String) : (a ++ b) ++ c = a ++ (b ++ c) := by
  apply String.ext
  simp [string_data_append, List.append_assoc]

theorem string_append_empty (a : String) : a ++ "" = a := by
  apply String.ext
  simp [string_data_append]

theorem string_eq_empty_iff (a : String) : a = "" ↔ a.data = [] := by
  constructor
  · intro h; subst h; rfl
  · intro h; apply String.ext; simpa using h

/-- Whether a string ends in `/` depends only on the last character: an
append with a nonempty right part ends in `/` iff the right part does. -/
theorem strEndsWith_append_right (a b : String) (hb : b.data ≠ []) :
    strEndsWith (a ++ b) "/" = strEndsWith b "/" := by
  unfold strEndsWith
  rw [string_data_append, List.reverse_append]
  rcases List.exists_cons_of_ne_nil (by simpa using hb : b.data.reverse ≠ []) with ⟨c, t, hct⟩
  rw [hct]
  simp [listIsPfx]

theorem strStartsWith_append_self (p k : String) : strStartsWith (p ++ k) p = true := by
  unfold strStartsWith
  rw [string_data_append]
  exact listIsPfx_self_append _ _

theorem strDrop_append_self (p k : String) : strDrop (p ++ k) (strLength p) = k := by
  unfold strDrop strLength
  rw [string_data_append, List.drop_left]

example : strStartsWith "https://a/b" "https://a" = true := by decide
example : strStartsWith "https://a/b" "https://b" = false := by decide
example : strEndsWith "https://a/" "/" = true := by decide
example : strEndsWith "https://a" "/" = false := by decide
example : strDrop "https://a/b" 10 = "b" := by decide
example : parseDigits "123".data = 123 := by decide

/-! ## UUID validation (the `uuid` package's `validate`) -/

/-- Positions of the four dashes in the canonical 36-character UUID form. -/
def uuidDashPos (i : Nat) : Bool := i == 8 || i == 13 || i == 18 || i == 23

def isHexChar (c : Char) : Bool :=
  (('0' ≤ c) && (c ≤ '9')) || (('a' ≤ c) && (c ≤ 'f')) || (('A' ≤ c) && (c ≤ 'F'))

/-- Per-position character class of the general UUID alternative of the
`validate` regex: dashes at 8/13/18/23, a version digit `1`–`8` at 14, a
variant character `[89abAB]` at 19, hex elsewhere. -/
def uuidCharOk (i : Nat) (c : Char) : Bool :=
  if uuidDashPos i then c == '-'
  else if i == 14 then ('1' ≤ c) && (c ≤ '8')
  else if i == 19 then c == '8' || c == '9' || c == 'a' || c == 'b' || c == 'A' || c == 'B'
  else isHexChar c

/-- The `uuid` npm package's `validate(s)` (a dependency of both the issuer
and the verifier; embedded from its published regex
`/^(?:[0-9a-f]{8}-[0-9a-f]{4}-[1-8][0-9a-f]{3}-[89ab][0-9a-f]{3}-[0-9a-f]{12}|00000000-0000-0000-0000-000000000000|ffffffff-ffff-ffff-ffff-ffffffffffff)$/i`):
the canonical dashed form with version/variant constraints, or the nil or
max UUID. -/
def uuidValidate (s : String) : Bool :=
  let l := s.data
  (l.length == 36) &&
    ((l.enum.all fun p => uuidCharOk p.1 p.2) ||
     (l.enum.all fun p => if uuidDashPos p.1 then p.2 == '-' else p.2 == '0') ||
     (l.enum.all fun p => if uuidDashPos p.1 then p.2 == '-' else (p.2 == 'f' || p.2 == 'F')))

example : uuidValidate "01234567-89ab-7def-8abc-0123456789ab" = true := by decide
example : uuidValidate "00000000-0000-0000-0000-000000000000" = true := by decide
example : uuidValidate "not-a-uuid" = false := by decide
example : uuidValidate "" = false := by decide
example : uuidValidate "01234567-89ab-9def-8abc-0123456789ab" = false := by decide

/-! ## Protocol constants (packages/shared src/index.ts) -/

def ALG : String := "RS256"

/-- `VER_PREFIX` of the source (renamed). -/
def VER_PFX : String := "japikey-v"

def VER_NUM : Nat := 1

/-- `` VER = `${VER_PREFIX}${VER_NUM}` ``. -/
def VER : String := VER_PFX ++ toString VER_NUM

example : VER = "japikey-v1" := by decide

/-! ## JWT wire model -/

/-- The public JWK exported at issuance: the abstract identity of the
underlying RSA key material, plus the `kid` field stamped on it. -/
structure JWK where
  keyId : Nat
  kid : Option String
deriving DecidableEq, Repr

/-- A decoded protected header (`{alg, kid}` are the fields this library
reads or writes). -/
structure JoseHeader where
  alg : String
  kid : Option String
deriving DecidableEq

/-- An RS256 signature: it commits to exactly the protected header and
payload that were signed, by the key `keyId`. -/
structure Sig where
  header : JoseHeader
  payload : ClaimMap
  keyId : Nat

/-- A decodable three-part JWT. -/
structure SignedJWT where
  header : JoseHeader
  payload : ClaimMap
  sig : Sig

/-- A candidate token string: either some string that `jose.decodeJwt` /
`decodeProtectedHeader` rejects (empty, not three parts, bad base64, ...),
or a decodable JWT. -/
inductive TokenStr
  | garbage (s : String)
  | jwt (t : SignedJWT)

/-- `jose.decodeJwt` + `jose.decodeProtectedHeader` (no signature check). -/
def decodeToken : TokenStr → Except String SignedJWT
  | .garbage _ => .error "jose: failed to decode token"
  | .jwt t => .ok t

/-! ## Key issuer (packages/japikey src/sign.ts) -/

structure CreateApiKeyOptions where
  sub : String
  iss : URL
  aud : String
  /-- `expiresAt.getTime()`: milliseconds since the Unix epoch. -/
  expiresAt : Int

structure CreateApiKeyResult where
  jwk : JWK
  jwt : SignedJWT
  kid : String

/-- The nondeterministic inputs of one `createApiKey` call: the generated
UUIDv7 `kid`, the identity of the fresh key pair, whether
`jose.generateKeyPair` fails (the `SigningError` path), and the signing
clock (`setIssuedAt`), in seconds. -/
structure IssueEnv where
  kid : String
  keyId : Nat
  keygenFails : Bool
  issuedAt : Int

/-- `getExpiresAt`: rejects pre-epoch expiries with `IncorrectUsageError`,
otherwise floor-truncates milliseconds to seconds. -/
def getExpiresAt (expiresAt : Int) : Except JapikeyError Int :=
  if expiresAt < 0 then .error (IncorrectUsageError "expiresAt must be in the future")
  else .ok (expiresAt / 1000)

/-- `getSub`: rejects an empty subject with `IncorrectUsageError`. -/
def getSub (options : CreateApiKeyOptions) : Except JapikeyError String :=
  if options.sub = "" then .error (IncorrectUsageError "sub must be a non-empty string")
  else .ok options.sub

/-- Result of a `createApiKey` call, instrumented with whether
`jose.generateKeyPair` was reached (for the claims about failing *before*
key material is generated). -/
structure IssueOutcome where
  result : Except JapikeyError CreateApiKeyResult
  keygenAttempted : Bool

/-- `createApiKey(claims, options)`, in source order: generate `kid`,
validate/truncate `expiresAt`, build `iss` via `appendPathToUrl`, validate
`sub`, generate the key pair, export the JWK (stamping `kid` on it), then
sign `{...claims, ...overrides, ver: VER}` (so the protocol claims
`sub`/`iss`/`aud`/`exp`/`ver` shadow caller claims) with header
`{alg: ALG, kid}` and `setIssuedAt()` (which in turn shadows any caller
`iat`).  The surrounding `try`/`catch` re-throws `JapikeyError`s unchanged
and wraps anything else as `UnknownError`; every failure modelled here is
already a `JapikeyError`, and the `jose` export/sign steps are modelled as
succeeding (their failure paths are the analogous `SigningError` wraps). -/
def createApiKey (claims : ClaimMap) (options : CreateApiKeyOptions) (env : IssueEnv) :
    IssueOutcome :=
  match getExpiresAt options.expiresAt with
  | .error e => ⟨.error e, false⟩
  | .ok exp =>
    let iss := (appendPathToUrl options.iss env.kid).toString
    match getSub options with
    | .error e => ⟨.error e, false⟩
    | .ok sub =>
      if env.keygenFails then ⟨.error (SigningError "Failed to generate key pair"), true⟩
      else
        let jwk : JWK := ⟨env.keyId, some env.kid⟩
        let overrides : ClaimMap :=
          [("sub", .str sub), ("iss", .str iss), ("aud", .str options.aud), ("exp", .num exp)]
        let verMap : ClaimMap := [("ver", .str VER)]
        let iatMap : ClaimMap := [("iat", .num env.issuedAt)]
        let payload : ClaimMap := ((claims ++ overrides) ++ verMap) ++ iatMap
        let header : JoseHeader := ⟨ALG, some env.kid⟩
        ⟨.ok ⟨jwk, ⟨header, payload, ⟨header, payload, env.keyId⟩⟩, env.kid⟩, true⟩

/-! ## Token verifier (packages/authenticate src/index.ts) -/

/-- The `prefix` local of `validateIssuer`: the base issuer's serialization
with a trailing `/` ensured. -/
def issuerPfx (baseIssuer : URL) : String :=
  let p := baseIssuer.toString
  if strEndsWith p "/" then p else p ++ "/"

/-- `validateIssuer(iss, baseIssuer)`: the unverified `iss` claim must be a
non-empty string, must start with the base issuer's serialization
(trailing-`/`-ensured), and the remainder must be a valid UUID; returns
`{issuerKid, iss}`. -/
def validateIssuer (iss : Option ClaimValue) (baseIssuer : URL) :
    Except JapikeyError (String × String) :=
  match iss with
  | some (.str s) =>
    if s = "" then .error (MalformedTokenError "Missing issuer in token")
    else
      let p := issuerPfx baseIssuer
      if strStartsWith s p then
        let issuerKid := strDrop s (strLength p)
        if uuidValidate issuerKid then .ok (issuerKid, s)
        else .error (MalformedTokenError "Invalid issuer")
      else .error (MalformedTokenError "Invalid issuer")
  | _ => .error (MalformedTokenError "Missing issuer in token")

/-- `validateKid(issuerKid, protectedHeader)`: the protected header's `kid`
must equal the key id extracted from the issuer. -/
def validateKid (issuerKid : String) (protectedHeader : JoseHeader) :
    Except JapikeyError String :=
  if protectedHeader.kid = some issuerKid then .ok issuerKid
  else .error (MalformedTokenError "Mismatched kid compared to issuer")

/-- `` ver.match(new RegExp(`^${VER_PREFIX}(\\d{1,3})$`)) ``: the capture
group when the whole string is the prefix followed by one to three digits. -/
def verRegexMatch (ver : String) : Option String :=
  if strStartsWith ver VER_PFX then
    let rest := strDrop ver (strLength VER_PFX)
    if 1 ≤ strLength rest ∧ strLength rest ≤ 3 ∧ rest.data.all Char.isDigit then some rest
    else none
  else none

/-- `validateVersion(unverified)`: the `ver` claim must be a string matching
the version regex, and the parsed integer must not exceed `VER_NUM`. -/
def validateVersion (unverified : ClaimMap) : Except JapikeyError Nat :=
  match getClaim unverified "ver" with
  | some (.str ver) =>
    match verRegexMatch ver with
    | some ds =>
      let parsed := parseDigits ds.data
      if parsed > VER_NUM then .error (MalformedTokenError "Invalid version")
      else .ok parsed
    | none => .error (MalformedTokenError "Invalid version")
  | _ => .error (MalformedTokenError "Invalid version")

/-- `shouldAuthenticate(token, baseIssuer)`: runs decode and the issuer,
kid and version checks inside one `try`, converting every failure to
`false` and success to `true`. -/
def shouldAuthenticate (token : TokenStr) (baseIssuer : URL) : Bool :=
  match decodeToken token with
  | .error _ => false
  | .ok t =>
    match validateIssuer (getClaim t.payload "iss") baseIssuer with
    | .error _ => false
    | .ok (issuerKid, _) =>
      match validateKid issuerKid t.header with
      | .error _ => false
      | .ok _ =>
        match validateVersion t.payload with
        | .error _ => false
        | .ok _ => true

/-- An exception surfacing inside `authenticate`'s verification `try` block:
either a typed `JapikeyError` (e.g. the defense-in-depth check of a
`createGetJWKS` resolver) or a native error from `jose`/the network. -/
inductive CaughtError
  | japikey (e : JapikeyError)
  | native (msg : String)

/-- The injected resolver seam: from `{kid, iss}` to key material.  The JS
value is a lazily-invoked `JWTVerifyGetKey`; its construction and its
invocation both happen inside `authenticate`'s `try`, so the model collapses
them into one fallible call.  (`authenticate` passes `new URL(iss)`; the
re-parse of the already-validated string is absorbed into the resolver.) -/
def GetJWKS : Type := String → String → Except CaughtError JWK

structure AuthenticateOptions where
  baseIssuer : URL
  getJWKS : GetJWKS
  /-- The verification clock (seconds since epoch) used by `jose.jwtVerify`
  for the standard `nbf` and `exp` checks. -/
  now : Int

/-- Standard `iat` claim validation of `jose.jwtVerify`: when present it
must be a number. -/
def checkIatClaim (payload : ClaimMap) : Except CaughtError Unit :=
  match getClaim payload "iat" with
  | some (.num _) => .ok ()
  | some _ => .error (.native "iat claim must be a number")
  | none => .ok ()

/-- Standard `nbf` claim validation of `jose.jwtVerify`: when present it
must be a number, and its timestamp must not lie after the verification
time `now`. -/
def checkNbfClaim (payload : ClaimMap) (now : Int) : Except CaughtError Unit :=
  match getClaim payload "nbf" with
  | some (.num n) =>
    if now < n then .error (.native "nbf claim timestamp check failed")
    else .ok ()
  | some _ => .error (.native "nbf claim must be a number")
  | none => .ok ()

/-- Standard `exp` claim validation of `jose.jwtVerify`: when present it
must be a number, and its timestamp must lie strictly after the
verification time `now`. -/
def checkExpClaim (payload : ClaimMap) (now : Int) : Except CaughtError Unit :=
  match getClaim payload "exp" with
  | some (.num e) =>
    if e ≤ now then .error (.native "JWT expired")
    else .ok ()
  | some _ => .error (.native "exp claim must be a number")
  | none => .ok ()

/-- `jose.jwtVerify(token, getKey, {algorithms: [ALG]})`: resolve the key,
check the algorithm allow-list, check that the signature commits to exactly
this header/payload under the resolved key, then run the standard claim-set
validation in jose's order — `iat` numeric when present, `nbf` numeric and
not in the future when present, `exp` numeric and strictly after `now` when
present; returns the verified payload. -/
def jwtVerify (t : SignedJWT) (keyResult : Except CaughtError JWK) (now : Int) :
    Except CaughtError ClaimMap :=
  match keyResult with
  | .error e => .error e
  | .ok key =>
    if t.header.alg ≠ ALG then .error (.native "disallowed algorithm")
    else if ¬ (t.sig.header = t.header ∧ t.sig.payload = t.payload ∧ t.sig.keyId = key.keyId) then
      .error (.native "signature verification failed")
    else
      match checkIatClaim t.payload with
      | .error e => .error e
      | .ok _ =>
        match checkNbfClaim t.payload now with
        | .error e => .error e
        | .ok _ =>
          match checkExpClaim t.payload now with
          | .error e => .error e
          | .ok _ => .ok t.payload

/-- `authenticate(token, options)`: decode (failure → `MalformedTokenError`),
then `validateVersion`, `validateIssuer`, `validateKid` (their typed errors
propagate), then the verification `try` block: resolver + `jwtVerify`, any
failure of which becomes `UnauthorizedError('Failed to verify token')`. -/
def authenticate (token : TokenStr) (options : AuthenticateOptions) :
    Except JapikeyError ClaimMap :=
  match decodeToken token with
  | .error _ => .error (MalformedTokenError "Invalid token")
  | .ok t =>
    match validateVersion t.payload with
    | .error e => .error e
    | .ok _ =>
      match validateIssuer (getClaim t.payload "iss") options.baseIssuer with
      | .error e => .error e
      | .ok (issuerKid, iss) =>
        match validateKid issuerKid t.header with
        | .error e => .error e
        | .ok kid =>
          match jwtVerify t (options.getJWKS kid iss) options.now with
          | .ok payload => .ok payload
          | .error _ => .error (UnauthorizedError "Failed to verify token")

/-- The remote lookup URL built inside the resolver returned by
`createGetJWKS`: `appendPathToUrl(data.iss, '.well_known/jwks.json')`
(packages/authenticate src/index.ts line 97, string literal verbatim). -/
def createGetJWKSUrl (iss : URL) : URL := appendPathToUrl iss ".well_known/jwks.json"

/-- `createGetJWKS(baseIssuer, options)`: the returned resolver re-validates
the issuer against the allow-listed base (defense in depth, throwing
`MalformedTokenError`), then fetches a remote JWK set from the composed
lookup URL (`remote` stands for `jose.createRemoteJWKSet` + network). -/
def createGetJWKS (baseIssuer : URL) (remote : URL → Except CaughtError JWK) :
    URL → Except CaughtError JWK :=
  fun iss =>
    match validateIssuer (some (.str iss.toString)) baseIssuer with
    | .error e => .error (.japikey e)
    | .ok _ => remote (createGetJWKSUrl iss)

/-! ## Claim-map lemmas -/

theorem getClaim_append (a b : ClaimMap) (k : String) :
    getClaim (a ++ b) k = (getClaim b k).or (getClaim a k) := by
  induction a with
  | nil =>
    cases h : getClaim b k <;> simp [getClaim, Option.or, h]
  | cons hd as ih =>
    obtain ⟨k', v⟩ := hd
    show getClaim ((k', v) :: (as ++ b)) k = _
    simp only [getClaim, ih]
    cases getClaim b k <;> cases getClaim as k <;> simp [getClaim, Option.or]

theorem getClaim_singleton (k k' : String) (v : ClaimValue) :
    getClaim [(k', v)] k = if k' = k then some v else none := by
  simp [getClaim]

/-! ## UUID-shape lemmas -/

theorem uuidValidate_ne_nil {s : String} (h : uuidValidate s = true) : s.data ≠ [] := by
  unfold uuidValidate at h
  rw [Bool.and_eq_true] at h
  have hl : s.data.length = 36 := by simpa using h.1
  intro hnil
  rw [hnil] at hl
  simp at hl

theorem uuidValidate_head_not_slash {s : String} (h : uuidValidate s = true) :
    strStartsWith s "/" = false := by
  unfold uuidValidate at h
  rw [Bool.and_eq_true] at h
  have hl : s.data.length = 36 := by simpa using h.1
  obtain ⟨c, t, hct⟩ := List.exists_cons_of_ne_nil
    (by intro hnil; rw [hnil] at hl; simp at hl : s.data ≠ [])
  have hc : c ≠ '/' := by
    have h2 := h.2
    rw [Bool.or_eq_true, Bool.or_eq_true] at h2
    rcases h2 with (ha | hb) | hcc
    · rw [hct] at ha
      have : uuidCharOk 0 c = true := by
        have := List.all_eq_true.mp ha (0, c) (by simp [List.enum])
        simpa using this
      have hhex : isHexChar c = true := by simpa [uuidCharOk, uuidDashPos] using this
      intro he; rw [he] at hhex; simp [isHexChar] at hhex
    · rw [hct] at hb
      have : (if uuidDashPos 0 then c == '-' else c == '0') = true := by
        have := List.all_eq_true.mp hb (0, c) (by simp [List.enum])
        simpa using this
      have h0 : c = '0' := by simpa [uuidDashPos] using this
      intro he; rw [he] at h0; simp at h0
    · rw [hct] at hcc
      have : (if uuidDashPos 0 then c == '-' else (c == 'f' || c == 'F')) = true := by
        have := List.all_eq_true.mp hcc (0, c) (by simp [List.enum])
        simpa using this
      have hf : c = 'f' ∨ c = 'F' := by
        simpa [uuidDashPos] using this
      intro he
      rcases hf with hf | hf <;> rw [he] at hf <;> simp at hf
  unfold strStartsWith
  rw [hct]
  show listIsPfx ['/'] (c :: t) = false
  simp [listIsPfx, Ne.symm hc]

theorem uuidValidate_ne_empty {s : String} (h : uuidValidate s = true) : s ≠ "" := by
  intro he
  exact uuidValidate_ne_nil h (by rw [he])

/-! ## Issuance/issuer-URL composition lemmas -/

/-- Projections of an `appendPathToUrl` result with a nonempty relative
path: scheme, userinfo, host and port are `base`'s, query and fragment are
cleared. -/
theorem appendPathToUrl_fields (base : URL) (path : String) (hp : path ≠ "") :
    (appendPathToUrl base path).protocol = base.protocol ∧
    (appendPathToUrl base path).username = base.username ∧
    (appendPathToUrl base path).password = base.password ∧
    (appendPathToUrl base path).hostname = base.hostname ∧
    (appendPathToUrl base path).port = base.port ∧
    (appendPathToUrl base path).search = "" ∧
    (appendPathToUrl base path).hash = "" := by
  unfold appendPathToUrl
  rw [if_neg hp]
  exact ⟨rfl, rfl, rfl, rfl, rfl, rfl, rfl⟩

/-- The pathname computed by `appendPathToUrl` for a nonempty relative path
that does not begin with `/`. -/
theorem appendPathToUrl_pathname (base : URL) (path : String) (hp : path ≠ "")
    (hns : strStartsWith path "/" = false) :
    (appendPathToUrl base path).pathname =
      if strEndsWith base.pathname "/" then base.pathname ++ path
      else base.pathname ++ "/" ++ path := by
  unfold appendPathToUrl
  rw [if_neg hp]
  simp only [hns, Bool.false_eq_true, if_false]

/-- `URL.head` ignores path, query and fragment. -/
theorem head_update (base : URL) (np : String) :
    ({ base with search := "", hash := "", pathname := np } : URL).head = base.head := rfl

/-- Serialization of a URL without query or fragment. -/
theorem toString_no_search_hash (u : URL) (hs : u.search = "") (hh : u.hash = "") :
    u.toString = u.head ++ u.pathname := by
  unfold URL.toString
  rw [hs, hh, string_append_empty, string_append_empty]

/-- Expansion of the verifier's issuer `prefix` for a base without query or
fragment whose path already ends in `/`. -/
theorem issuerPfx_ends (b : URL) (hs : b.search = "") (hh : b.hash = "")
    (hp : b.pathname.data ≠ []) (hsl : strEndsWith b.pathname "/" = true) :
    issuerPfx b = b.head ++ b.pathname := by
  have hbase_tos : b.toString = b.head ++ b.pathname := toString_no_search_hash b hs hh
  have h2 : strEndsWith (b.head ++ b.pathname) "/" = true := by
    rw [strEndsWith_append_right _ _ hp]; exact hsl
  simp only [issuerPfx, hbase_tos, h2, if_true]

/-- Expansion of the verifier's issuer `prefix` for a base without query or
fragment whose path does not end in `/`. -/
theorem issuerPfx_not_ends (b : URL) (hs : b.search = "") (hh : b.hash = "")
    (hp : b.pathname.data ≠ []) (hsl : strEndsWith b.pathname "/" = false) :
    issuerPfx b = (b.head ++ b.pathname) ++ "/" := by
  have hbase_tos : b.toString = b.head ++ b.pathname := toString_no_search_hash b hs hh
  have h2 : strEndsWith (b.head ++ b.pathname) "/" = false := by
    rw [strEndsWith_append_right _ _ hp]; exact hsl
  simp only [issuerPfx, hbase_tos, h2, Bool.false_eq_true, if_false]

/-- The issuer URL minted by `createApiKey` serializes to exactly the
verifier's issuer `prefix` string followed by the key id, whenever the base
issuer URL has no query or fragment, a nonempty path, and the key id is
nonempty and does not begin with `/`. -/
theorem appendPath_toString_eq (b : URL) (kid : String)
    (hs : b.search = "") (hh : b.hash = "")
    (hp : b.pathname.data ≠ [])
    (hk : strStartsWith kid "/" = false)
    (hkne : kid ≠ "") :
    (appendPathToUrl b kid).toString = issuerPfx b ++ kid := by
  have hfields := appendPathToUrl_fields b kid hkne
  have hpathn := appendPathToUrl_pathname b kid hkne hk
  have htos : (appendPathToUrl b kid).toString =
      (appendPathToUrl b kid).head ++ (appendPathToUrl b kid).pathname :=
    toString_no_search_hash _ hfields.2.2.2.2.2.1 hfields.2.2.2.2.2.2
  have hhead : (appendPathToUrl b kid).head = b.head := by
    unfold appendPathToUrl
    rw [if_neg hkne]
    rfl
  rw [htos, hhead, hpathn]
  cases hsl : strEndsWith b.pathname "/"
  · rw [issuerPfx_not_ends b hs hh hp hsl]
    simp only [Bool.false_eq_true, if_false]
    simp [string_append_assoc]
  · rw [issuerPfx_ends b hs hh hp hsl]
    simp only [if_true]
    simp [string_append_assoc]

/-- `validateIssuer` accepts exactly the minted issuer string and recovers
the key id. -/
theorem validateIssuer_minted (b : URL) (kid : String)
    (hu : uuidValidate kid = true) :
    validateIssuer (some (.str (issuerPfx b ++ kid))) b = .ok (kid, issuerPfx b ++ kid) := by
  have hne : issuerPfx b ++ kid ≠ "" := by
    rw [Ne, string_eq_empty_iff, string_data_append]
    simp [uuidValidate_ne_nil hu]
  simp only [validateIssuer]
  rw [if_neg hne, if_pos (strStartsWith_append_self _ _), strDrop_append_self, if_pos hu]

/-! ## Shared concrete example inputs -/

/-- `https://example.com/` (no query, no fragment, root path). -/
def exBase : URL := ⟨"https:", "", "", "example.com", "", "/", "", ""⟩

/-- A well-formed UUID (v7-shaped), as `uuidv7()` returns. -/
def exKid : String := "01234567-89ab-7def-8abc-0123456789ab"

/-- A fixed issuance environment: the generated `kid`, key-pair identity,
successful key generation, signing clock. -/
def exEnv : IssueEnv := ⟨exKid, 7, false, 1690000000⟩

/-- Issuance options used in concrete runs (expiry 2023-11-14T22:13:20Z). -/
def exOpts : CreateApiKeyOptions := ⟨"u1", exBase, "api-key", 1700000000000⟩

/-- Caller claims with one extra claim, as in the repository's tests. -/
def exClaims : ClaimMap := [("scopes", .arr [.str "read"])]

/-- A concrete issuance run. -/
def exIssue : IssueOutcome := createApiKey exClaims exOpts exEnv

/-- The token minted by `exIssue` (the error branch is never taken). -/
def exJwt : SignedJWT :=
  match exIssue.result with
  | .ok r => r.jwt
  | .error _ => ⟨⟨"", none⟩, [], ⟨⟨"", none⟩, [], 0⟩⟩

/-- The public JWK returned by `exIssue`. -/
def exJwk : JWK :=
  match exIssue.result with
  | .ok r => r.jwk
  | .error _ => ⟨0, none⟩

/-! ## Claim C10 -/

/-- C10: every `MalformedTokenError` carries HTTP code 401, kind
`malformed_token`, and the one fixed message
`'The token is missing or not in the correct format'`; the per-site message
argument is discarded, so two `MalformedTokenError`s built from different
messages are equal and the thrown error does not reveal which structural
check failed. -/
theorem malformed_token_error_uniform :
    ∀ message : String,
      (MalformedTokenError message).code = 401 ∧
      (MalformedTokenError message).errorType = ErrorType.malformed_token ∧
      (MalformedTokenError message).message =
        "The token is missing or not in the correct format" ∧
      ∀ other : String, MalformedTokenError message = MalformedTokenError other :=
  fun _ => ⟨rfl, rfl, rfl, fun _ => rfl⟩

/-! ## Claim C7 -/

/-- A base URL with subpath, query and fragment. -/
def c7Base : URL := ⟨"https:", "", "", "example.com", "", "/a", "?x=1", "#f"⟩

/-- C7 counterexample: the claim says `appendPathToUrl(base, '')` returns
`base` with query and fragment removed and a trailing `/` ensured; at this
concrete base the result keeps the query `?x=1` and fragment `#f` and its
path still does not end in `/`. -/
theorem appendPath_empty_counterexample :
    appendPathToUrl c7Base "" = c7Base ∧
    (appendPathToUrl c7Base "").search = "?x=1" ∧
    (appendPathToUrl c7Base "").hash = "#f" ∧
    strEndsWith (appendPathToUrl c7Base "").pathname "/" = false := by
  decide

/-- C7 (amended): for every base URL, `appendPathToUrl(base, '')` returns
`base` unchanged — the empty-path guard short-circuits before the query and
fragment are cleared, so nothing is dropped and no trailing `/` is added. -/
theorem appendPath_empty_id : ∀ base : URL, appendPathToUrl base "" = base :=
  fun _ => rfl

/-! ## Claim C9 -/

/-- C9: for every base URL and nonempty key id, `appendPathToUrl` yields a
URL whose path is the base's path joined to the key id with exactly one `/`
between them — regardless of one trailing `/` on the base path, of the
base's query or fragment, and of one leading `/` on the relative path — and
the result preserves the base's scheme, userinfo, host and port. -/
theorem appendPath_join (b : URL) (rel pbase q : String)
    (hb : b.pathname = pbase ∨ b.pathname = pbase ++ "/")
    (hr : rel = q ∨ rel = "/" ++ q)
    (hpe : strEndsWith pbase "/" = false)
    (hqs : strStartsWith q "/" = false)
    (hrel : rel ≠ "") :
    (appendPathToUrl b rel).pathname = pbase ++ "/" ++ q ∧
    (appendPathToUrl b rel).protocol = b.protocol ∧
    (appendPathToUrl b rel).username = b.username ∧
    (appendPathToUrl b rel).password = b.password ∧
    (appendPathToUrl b rel).hostname = b.hostname ∧
    (appendPathToUrl b rel).port = b.port ∧
    (appendPathToUrl b rel).search = "" ∧
    (appendPathToUrl b rel).hash = "" := by
  have hfields := appendPathToUrl_fields b rel hrel
  refine ⟨?_, hfields.1, hfields.2.1, hfields.2.2.1, hfields.2.2.2.1,
    hfields.2.2.2.2.1, hfields.2.2.2.2.2.1, hfields.2.2.2.2.2.2⟩
  have hnorm : (if strStartsWith rel "/" then strDrop rel 1 else rel) = q := by
    rcases hr with hr | hr
    · rw [hr, if_neg (by rw [hqs]; simp)]
    · rw [hr, if_pos (strStartsWith_append_self "/" q)]
      have : strLength "/" = 1 := rfl
      rw [← this, strDrop_append_self]
  show (appendPathToUrl b rel).pathname = _
  unfold appendPathToUrl
  rw [if_neg hrel]
  simp only [hnorm]
  rcases hb with hb | hb
  · rw [hb, hpe]
    simp
  · have hends : strEndsWith (pbase ++ "/") "/" = true := by
      rw [strEndsWith_append_right pbase "/" (by decide)]; decide
    rw [hb, hends]
    simp [string_append_assoc]

/-- A base URL exercising userinfo, port, subpath, query and fragment. -/
def c9Base : URL := ⟨"https:", "user", "pw", "example.com", "8080", "/a", "?q=1", "#z"⟩

/-- Witness for C9 at a concrete base and a leading-slash relative path. -/
theorem appendPath_join_witness :
    (appendPathToUrl c9Base "/kid").pathname = "/a" ++ "/" ++ "kid" ∧
    (appendPathToUrl c9Base "/kid").protocol = c9Base.protocol ∧
    (appendPathToUrl c9Base "/kid").username = c9Base.username ∧
    (appendPathToUrl c9Base "/kid").password = c9Base.password ∧
    (appendPathToUrl c9Base "/kid").hostname = c9Base.hostname ∧
    (appendPathToUrl c9Base "/kid").port = c9Base.port ∧
    (appendPathToUrl c9Base "/kid").search = "" ∧
    (appendPathToUrl c9Base "/kid").hash = "" :=
  appendPath_join c9Base "/kid" "/a" "kid" (Or.inl rfl) (Or.inr (by decide))
    (by decide) (by decide) (by decide)

/-! ## Claim C6 -/

/-- The issuer URL of a minted key under `exBase`. -/
def c6Iss : URL := appendPathToUrl exBase exKid

/-- C6 (code bug): the resolver returned by `createGetJWKS` composes its
remote lookup URL with the misspelled segment `.well_known` (underscore),
not the documented, RFC 8615 and server-side `.well-known` (hyphen): at a
concrete minted issuer URL the built path is
`/<kid>/.well_known/jwks.json`, which is not the
`/<kid>/.well-known/jwks.json` path the express/cloudflare routers of this
repository serve. -/
theorem createGetJWKS_url_underscore :
    (createGetJWKSUrl c6Iss).pathname =
      "/" ++ exKid ++ "/.well_known/jwks.json" ∧
    (createGetJWKSUrl c6Iss).pathname ≠
      "/" ++ exKid ++ "/.well-known/jwks.json" := by
  decide

/-! ## Claim C8 -/

/-- C8: for every `expiresAt` with negative epoch time, `createApiKey` fails
with `IncorrectUsage` and key generation is never attempted; a non-negative
`expiresAt` (even one already in the past) is not rejected by this
precondition — with a nonempty subject and working key generation the call
succeeds. -/
theorem negative_expiry_gate (claims : ClaimMap) (options : CreateApiKeyOptions)
    (env : IssueEnv) :
    (options.expiresAt < 0 →
      createApiKey claims options env =
        ⟨.error (IncorrectUsageError "expiresAt must be in the future"), false⟩) ∧
    (0 ≤ options.expiresAt → options.sub ≠ "" → env.keygenFails = false →
      ∃ res, createApiKey claims options env = ⟨.ok res, true⟩) := by
  constructor
  · intro h
    simp only [createApiKey, getExpiresAt, if_pos h]
  · intro h0 hsub hkg
    simp only [createApiKey, getExpiresAt, getSub, if_neg (not_lt.mpr h0), if_neg hsub,
      hkg, Bool.false_eq_true, if_false]
    exact ⟨_, rfl⟩

/-- Options with a pre-epoch expiry. -/
def c8Neg : CreateApiKeyOptions := ⟨"u1", exBase, "api-key", -5⟩

/-- Options with expiry exactly at the epoch (in the past, yet accepted). -/
def c8Epoch : CreateApiKeyOptions := ⟨"u1", exBase, "api-key", 0⟩

/-- Witness for C8: the negative-expiry run fails before key generation and
the epoch-expiry run succeeds. -/
theorem negative_expiry_gate_witness :
    createApiKey exClaims c8Neg exEnv =
      ⟨.error (IncorrectUsageError "expiresAt must be in the future"), false⟩ ∧
    ∃ res, createApiKey exClaims c8Epoch exEnv = ⟨.ok res, true⟩ :=
  ⟨(negative_expiry_gate exClaims c8Neg exEnv).1 (by decide),
   (negative_expiry_gate exClaims c8Epoch exEnv).2 (by decide) (by decide) rfl⟩

/-! ## Prefix decomposition -/

theorem listIsPfx_eq_append : ∀ p l : List Char, listIsPfx p l = true →
    l = p ++ l.drop p.length
  | [], l => by intro _; simp
  | a :: as, [] => by intro h; simp [listIsPfx] at h
  | a :: as, b :: bs => by
    intro h
    simp only [listIsPfx, Bool.and_eq_true, beq_iff_eq] at h
    have := listIsPfx_eq_append as bs h.2
    simp [h.1, List.drop]
    conv_lhs => rw [this]

/-- A string that starts with `p` is `p` followed by its `slice(p.length)`. -/
theorem strStartsWith_decomp (v p : String) (h : strStartsWith v p = true) :
    v = p ++ strDrop v (strLength p) := by
  unfold strStartsWith at h
  apply String.ext
  rw [string_data_append]
  exact listIsPfx_eq_append p.data v.data h

/-! ## Claim C4 -/

/-- C4: the version gate.  `validateVersion` succeeds (with parsed value
`n`) exactly when the `ver` claim is the string `VER_PFX` (`'japikey-v'`)
followed by one to three digits denoting `n ≤ VER_NUM` (the verifier's
maximum, 1); any payload whose `ver` is missing, not a string, not matching
the pattern, or parsing above the maximum is rejected, and every rejection
is the `MalformedTokenError` (with per-site message `'Invalid version'`). -/
theorem version_gate (payload : ClaimMap) :
    (∀ n, validateVersion payload = .ok n ↔
      ∃ ds, getClaim payload "ver" = some (.str (VER_PFX ++ ds)) ∧
        1 ≤ strLength ds ∧ strLength ds ≤ 3 ∧ ds.data.all Char.isDigit = true ∧
        parseDigits ds.data = n ∧ n ≤ VER_NUM) ∧
    (∀ e, validateVersion payload = .error e →
      e = MalformedTokenError "Invalid version") := by
  constructor
  · intro n
    constructor
    · intro h
      unfold validateVersion at h
      split at h
      case h_2 => exact absurd h (by simp)
      case h_1 v s hget =>
        cases hm : verRegexMatch s with
        | none => simp only [hm] at h; exact absurd h (by simp)
        | some ds =>
          simp only [hm] at h
          by_cases hgt : parseDigits ds.data > VER_NUM
          · rw [if_pos hgt] at h; exact absurd h (by simp)
          · rw [if_neg hgt] at h
            have hn : parseDigits ds.data = n := by
              simpa using h
            unfold verRegexMatch at hm
            by_cases hsw : strStartsWith s VER_PFX = true
            · rw [if_pos hsw] at hm
              by_cases hc : 1 ≤ strLength (strDrop s (strLength VER_PFX)) ∧
                  strLength (strDrop s (strLength VER_PFX)) ≤ 3 ∧
                  (strDrop s (strLength VER_PFX)).data.all Char.isDigit
              · rw [if_pos hc] at hm
                have hds : strDrop s (strLength VER_PFX) = ds := by simpa using hm
                refine ⟨ds, ?_, ?_, ?_, ?_, hn, by omega⟩
                · rw [hget, ← hds, ← strStartsWith_decomp s VER_PFX hsw]
                · rw [← hds]; exact hc.1
                · rw [← hds]; exact hc.2.1
                · rw [← hds]; exact hc.2.2
              · rw [if_neg hc] at hm; exact absurd hm (by simp)
            · rw [if_neg hsw] at hm; exact absurd hm (by simp)
    · rintro ⟨ds, hget, h1, h3, hdig, hparse, hle⟩
      unfold validateVersion
      rw [hget]
      have hm : verRegexMatch (VER_PFX ++ ds) = some ds := by
        unfold verRegexMatch
        rw [if_pos (strStartsWith_append_self _ _), strDrop_append_self,
          if_pos ⟨h1, h3, hdig⟩]
      show (match verRegexMatch (VER_PFX ++ ds) with
        | some ds =>
          if parseDigits ds.data > VER_NUM then
            Except.error (MalformedTokenError "Invalid version")
          else Except.ok (parseDigits ds.data)
        | none => Except.error (MalformedTokenError "Invalid version")) = Except.ok n
      rw [hm]
      show (if parseDigits ds.data > VER_NUM then
          Except.error (MalformedTokenError "Invalid version")
        else Except.ok (parseDigits ds.data)) = Except.ok n
      rw [if_neg (by omega), hparse]
  · intro e he
    unfold validateVersion at he
    split at he
    case h_2 => simpa using he.symm
    case h_1 v s hget =>
      cases hm : verRegexMatch s with
      | none => simp only [hm] at he; simpa using he.symm
      | some ds =>
        simp only [hm] at he
        by_cases hgt : parseDigits ds.data > VER_NUM
        · rw [if_pos hgt] at he; simpa using he.symm
        · rw [if_neg hgt] at he; exact absurd he (by simp)

/-- Witness for C4: `ver = 'japikey-v1'` passes the gate (decomposed by the
theorem), and `ver = 'japikey-v99'` (above the maximum) is rejected with
the uniform `MalformedTokenError`. -/
theorem version_gate_witness :
    (∃ ds, getClaim [("ver", ClaimValue.str "japikey-v1")] "ver" =
        some (.str (VER_PFX ++ ds)) ∧
      1 ≤ strLength ds ∧ strLength ds ≤ 3 ∧ ds.data.all Char.isDigit = true ∧
      parseDigits ds.data = 1 ∧ 1 ≤ VER_NUM) ∧
    MalformedTokenError "Invalid version" = MalformedTokenError "Invalid version" :=
  ⟨((version_gate [("ver", ClaimValue.str "japikey-v1")]).1 1).mp rfl,
   (version_gate [("ver", ClaimValue.str "japikey-v99")]).2
     (MalformedTokenError "Invalid version") rfl⟩

/-! ## Claim C5 -/

/-- C5: `shouldAuthenticate` never throws — it is a total boolean function:
it returns `false` on every undecodable input (in particular the empty
string and any non-token string), and on a decodable token it returns
`true` exactly when the issuer check (against the given base issuer, so a
foreign issuer yields `false`), the kid/issuer match and the version gate
all pass. -/
theorem sniff_total (b : URL) :
    (∀ s, shouldAuthenticate (.garbage s) b = false) ∧
    (∀ t : SignedJWT,
      shouldAuthenticate (.jwt t) b = true ↔
        ∃ issuerKid iss v,
          validateIssuer (getClaim t.payload "iss") b = .ok (issuerKid, iss) ∧
          t.header.kid = some issuerKid ∧
          validateVersion t.payload = .ok v) := by
  constructor
  · intro s; rfl
  · intro t
    cases hvi : validateIssuer (getClaim t.payload "iss") b with
    | error e =>
      constructor
      · intro h
        simp only [shouldAuthenticate, decodeToken, hvi] at h
        exact absurd h (by simp)
      · rintro ⟨ik, is, v, hok, -, -⟩
        exact absurd hok (by simp)
    | ok pr =>
      obtain ⟨ik, is⟩ := pr
      by_cases hk : t.header.kid = some ik
      · cases hvv : validateVersion t.payload with
        | error e =>
          constructor
          · intro h
            simp only [shouldAuthenticate, decodeToken, hvi, validateKid, if_pos hk, hvv] at h
            exact absurd h (by simp)
          · rintro ⟨ik2, is2, v, hok, hk2, hvv2⟩
            exact absurd hvv2 (by simp)
        | ok v =>
          constructor
          · intro _; exact ⟨ik, is, v, rfl, hk, rfl⟩
          · intro _
            simp only [shouldAuthenticate, decodeToken, hvi, validateKid, if_pos hk, hvv]
      · constructor
        · intro h
          simp only [shouldAuthenticate, decodeToken, hvi, validateKid, if_neg hk] at h
          exact absurd h (by simp)
        · rintro ⟨ik2, is2, v, hok, hk2, -⟩
          simp only [Except.ok.injEq, Prod.mk.injEq] at hok
          rw [← hok.1] at hk2
          exact absurd hk2 hk

/-- Witness for C5: a minted token passes the sniff; the empty string and a
non-token string do not. -/
theorem sniff_total_witness :
    shouldAuthenticate (.garbage "") exBase = false ∧
    shouldAuthenticate (.garbage "invalid") exBase = false ∧
    shouldAuthenticate (.jwt exJwt) exBase = true :=
  ⟨(sniff_total exBase).1 "",
   (sniff_total exBase).1 "invalid",
   ((sniff_total exBase).2 exJwt).mpr
     ⟨exKid, "https://example.com/" ++ exKid, 1, rfl, rfl, rfl⟩⟩

/-! ## Claim C2 -/

/-- C2: for every token whose payload passes the issuer and version checks
and whose signature is validly bound to its content, replacing only the
protected header's `kid` by anything other than the issuer-derived key id
makes `authenticate` fail with the `MalformedTokenError` of the mismatched-kid
check (HTTP 401, kind `malformed_token`), for *every* resolver and
verification time — the kid/issuer structural check runs before the
resolver is invoked or any cryptographic verification is attempted. -/
theorem kid_mutation_malformed (t : SignedJWT) (b : URL) (issuerKid iss : String) (v : Nat)
    (_hsig : t.sig.header = t.header ∧ t.sig.payload = t.payload)
    (hver : validateVersion t.payload = .ok v)
    (hiss : validateIssuer (getClaim t.payload "iss") b = .ok (issuerKid, iss))
    (newKid : Option String) (hne : newKid ≠ some issuerKid) :
    ∀ (g : GetJWKS) (now : Int),
      authenticate (.jwt ⟨⟨t.header.alg, newKid⟩, t.payload, t.sig⟩) ⟨b, g, now⟩ =
        .error (MalformedTokenError "Mismatched kid compared to issuer") ∧
      (MalformedTokenError "Mismatched kid compared to issuer").errorType =
        ErrorType.malformed_token := by
  intro g now
  refine ⟨?_, rfl⟩
  simp only [authenticate, decodeToken, hver, hiss, validateKid, if_neg hne]

/-- A key id different from `exKid` (also a well-formed UUID). -/
def otherKid : String := "01234567-89ab-7def-8abc-0123456789ac"

/-- Witness for C2: mutating the minted token's `kid` header to a different
UUID makes `authenticate` fail with the uniform MalformedToken error, under
a resolver that would happily return the right key. -/
theorem kid_mutation_malformed_witness :
    authenticate (.jwt ⟨⟨exJwt.header.alg, some otherKid⟩, exJwt.payload, exJwt.sig⟩)
        ⟨exBase, fun _ _ => .ok exJwk, 1690000001⟩ =
      .error (MalformedTokenError "Mismatched kid compared to issuer") ∧
    (MalformedTokenError "Mismatched kid compared to issuer").errorType =
      ErrorType.malformed_token :=
  kid_mutation_malformed exJwt exBase exKid ("https://example.com/" ++ exKid) 1
    ⟨rfl, rfl⟩ rfl rfl (some otherKid) (by decide)
    (fun _ _ => .ok exJwk) 1690000001

/-! ## Claim C3 -/

/-- C3: for every token that passes the structural checks (decodable,
version gate, issuer shape, kid match), any failure of the injected
resolver or of the cryptographic/standard-claim verification makes
`authenticate` throw exactly `Unauthorized('Failed to verify token')`
(HTTP 403), never a MalformedToken error; the not-found/revoked-key
resolver failure is the instance exercised by the witness. -/
theorem post_structural_failure_unauthorized (t : SignedJWT)
    (options : AuthenticateOptions) (v : Nat) (issuerKid iss : String) (e : CaughtError)
    (hver : validateVersion t.payload = .ok v)
    (hiss : validateIssuer (getClaim t.payload "iss") options.baseIssuer =
      .ok (issuerKid, iss))
    (hkid : t.header.kid = some issuerKid)
    (hfail : jwtVerify t (options.getJWKS issuerKid iss) options.now = .error e) :
    authenticate (.jwt t) options = .error (UnauthorizedError "Failed to verify token") ∧
    (UnauthorizedError "Failed to verify token").errorType = ErrorType.unauthorized ∧
    (∀ m, authenticate (.jwt t) options ≠ .error (MalformedTokenError m)) := by
  have hmain : authenticate (.jwt t) options =
      .error (UnauthorizedError "Failed to verify token") := by
    simp only [authenticate, decodeToken, hver, hiss, validateKid, if_pos hkid, hfail]
  refine ⟨hmain, rfl, ?_⟩
  intro m h
  rw [hmain] at h
  simp [UnauthorizedError, MalformedTokenError] at h

/-- Verification options whose resolver reports the key as not found (the
revoked/unknown-key case). -/
def notFoundOpts : AuthenticateOptions :=
  ⟨exBase, fun _ _ => .error (.native "Not found"), 1690000001⟩

/-- Witness for C3: the minted token against a not-found resolver fails with
Unauthorized. -/
theorem post_structural_failure_unauthorized_witness :
    authenticate (.jwt exJwt) notFoundOpts =
      .error (UnauthorizedError "Failed to verify token") :=
  (post_structural_failure_unauthorized exJwt notFoundOpts 1 exKid
    ("https://example.com/" ++ exKid) (.native "Not found") rfl rfl rfl rfl).1

/-! ## Characterizing a successful issuance (proof-side abbreviations) -/

/-- The payload `createApiKey` signs:
`{...claims, ...overrides, ver: VER}` plus the `iat` stamped by
`setIssuedAt()`. -/
def signedPayload (claims : ClaimMap) (options : CreateApiKeyOptions)
    (env : IssueEnv) : ClaimMap :=
  ((claims ++
    [("sub", .str options.sub),
     ("iss", .str ((appendPathToUrl options.iss env.kid).toString)),
     ("aud", .str options.aud),
     ("exp", .num (options.expiresAt / 1000))]) ++
    [("ver", .str VER)]) ++ [("iat", .num env.issuedAt)]

/-- The `CreateApiKeyResult` of a successful `createApiKey` run. -/
def mintedResult (claims : ClaimMap) (options : CreateApiKeyOptions)
    (env : IssueEnv) : CreateApiKeyResult :=
  ⟨⟨env.keyId, some env.kid⟩,
   ⟨⟨ALG, some env.kid⟩, signedPayload claims options env,
    ⟨⟨ALG, some env.kid⟩, signedPayload claims options env, env.keyId⟩⟩,
   env.kid⟩

theorem createApiKey_ok (claims : ClaimMap) (options : CreateApiKeyOptions)
    (env : IssueEnv) (hexp : 0 ≤ options.expiresAt) (hsub : options.sub ≠ "")
    (hkg : env.keygenFails = false) :
    createApiKey claims options env = ⟨.ok (mintedResult claims options env), true⟩ := by
  simp only [createApiKey, getExpiresAt, getSub, if_neg (not_lt.mpr hexp), if_neg hsub,
    hkg, Bool.false_eq_true, if_false, mintedResult, signedPayload]

theorem signedPayload_sub (claims : ClaimMap) (options : CreateApiKeyOptions)
    (env : IssueEnv) :
    getClaim (signedPayload claims options env) "sub" = some (.str options.sub) := by
  unfold signedPayload
  rw [getClaim_append, getClaim_append, getClaim_append]
  simp [getClaim, Option.or]

theorem signedPayload_aud (claims : ClaimMap) (options : CreateApiKeyOptions)
    (env : IssueEnv) :
    getClaim (signedPayload claims options env) "aud" = some (.str options.aud) := by
  unfold signedPayload
  rw [getClaim_append, getClaim_append, getClaim_append]
  simp [getClaim, Option.or]

theorem signedPayload_exp (claims : ClaimMap) (options : CreateApiKeyOptions)
    (env : IssueEnv) :
    getClaim (signedPayload claims options env) "exp" =
      some (.num (options.expiresAt / 1000)) := by
  unfold signedPayload
  rw [getClaim_append, getClaim_append, getClaim_append]
  simp [getClaim, Option.or]

theorem signedPayload_ver (claims : ClaimMap) (options : CreateApiKeyOptions)
    (env : IssueEnv) :
    getClaim (signedPayload claims options env) "ver" = some (.str VER) := by
  unfold signedPayload
  rw [getClaim_append, getClaim_append, getClaim_append]
  simp [getClaim, Option.or]

theorem signedPayload_iat (claims : ClaimMap) (options : CreateApiKeyOptions)
    (env : IssueEnv) :
    getClaim (signedPayload claims options env) "iat" = some (.num env.issuedAt) := by
  unfold signedPayload
  rw [getClaim_append]
  simp [getClaim, Option.or]

theorem signedPayload_iss (claims : ClaimMap) (options : CreateApiKeyOptions)
    (env : IssueEnv) :
    getClaim (signedPayload claims options env) "iss" =
      some (.str ((appendPathToUrl options.iss env.kid).toString)) := by
  unfold signedPayload
  rw [getClaim_append, getClaim_append, getClaim_append]
  simp [getClaim, Option.or]

theorem signedPayload_extra (claims : ClaimMap) (options : CreateApiKeyOptions)
    (env : IssueEnv) (k : String) (h1 : k ≠ "sub") (h2 : k ≠ "iss") (h3 : k ≠ "aud")
    (h4 : k ≠ "exp") (h5 : k ≠ "ver") (h6 : k ≠ "iat") :
    getClaim (signedPayload claims options env) k = getClaim claims k := by
  unfold signedPayload
  rw [getClaim_append, getClaim_append, getClaim_append]
  simp [getClaim, Option.or, Ne.symm h1, Ne.symm h2, Ne.symm h3, Ne.symm h4,
    Ne.symm h5, Ne.symm h6]

/-! ## Claim C1 -/

/-- Issuance options expiring exactly at the Unix epoch (`expiresAt = 0`,
which the claim's `expiresAt ≥ 0` range admits). -/
def c1xOpts : CreateApiKeyOptions := ⟨"u1", exBase, "api-key", 0⟩

/-- The issuance run for the counterexample. -/
def c1xIssue : IssueOutcome := createApiKey [] c1xOpts exEnv

/-- The token minted by `c1xIssue` (the error branch is never taken). -/
def c1xJwt : SignedJWT :=
  match c1xIssue.result with
  | .ok r => r.jwt
  | .error _ => ⟨⟨"", none⟩, [], ⟨⟨"", none⟩, [], 0⟩⟩

/-- The public JWK returned by `c1xIssue`. -/
def c1xJwk : JWK :=
  match c1xIssue.result with
  | .ok r => r.jwk
  | .error _ => ⟨0, none⟩

/-- C1 counterexample: the round trip as stated fails.  `createApiKey`
accepts `expiresAt = 0` (non-negative epoch time, as the claim requires),
but `authenticate` — resolving exactly the returned public JWK — rejects
the minted token at verification time 1700000000 with
Unauthorized("Failed to verify token"), because `jose.jwtVerify` also
checks the standard `exp` claim against the verification clock; so
issue-then-verify does not succeed for every non-negative expiry. -/
theorem round_trip_counterexample :
    c1xIssue.result = .ok ⟨c1xJwk, c1xJwt, exKid⟩ ∧
    authenticate (.jwt c1xJwt) ⟨exBase, fun _ _ => .ok c1xJwk, 1700000000⟩ =
      .error (UnauthorizedError "Failed to verify token") :=
  ⟨rfl, rfl⟩

/-- C1 (amended): round trip.  For every caller claims map, nonempty
subject, audience, base issuer URL without query or fragment and with a
nonempty path, non-negative `expiresAt`, generated UUID key id and
succeeding key generation, if the verification time lies strictly before
the (floor-truncated) expiry second and any caller-supplied `nbf` claim is
a number not after the verification time (jose validates `nbf` whenever
present), then `createApiKey` succeeds and `authenticate` — resolving
exactly the returned public JWK — succeeds on the minted token and returns
its payload, in which `sub`, `aud` and `exp` equal the inputs (`exp`
floor-truncated to seconds), `ver` and `iss` are the protocol values, and
every caller claim other than the protocol-managed `sub`/`iss`/`aud`/
`exp`/`ver` and the signing-time-stamped `iat` is preserved; the
protocol-managed claims hold regardless of the caller claims map, so they
cannot be overridden or removed. -/
theorem round_trip (claims : ClaimMap) (options : CreateApiKeyOptions) (env : IssueEnv)
    (now : Int)
    (hsub : options.sub ≠ "")
    (hexp : 0 ≤ options.expiresAt)
    (hsearch : options.iss.search = "")
    (hhash : options.iss.hash = "")
    (hpath : options.iss.pathname.data ≠ [])
    (hkid : uuidValidate env.kid = true)
    (hkg : env.keygenFails = false)
    (hnow : now < options.expiresAt / 1000)
    (hnbf : getClaim claims "nbf" = none ∨
      ∃ n, getClaim claims "nbf" = some (.num n) ∧ n ≤ now) :
    ∃ res, createApiKey claims options env = ⟨.ok res, true⟩ ∧
      authenticate (.jwt res.jwt) ⟨options.iss, fun _ _ => .ok res.jwk, now⟩ =
        .ok res.jwt.payload ∧
      getClaim res.jwt.payload "sub" = some (.str options.sub) ∧
      getClaim res.jwt.payload "aud" = some (.str options.aud) ∧
      getClaim res.jwt.payload "exp" = some (.num (options.expiresAt / 1000)) ∧
      getClaim res.jwt.payload "ver" = some (.str VER) ∧
      getClaim res.jwt.payload "iss" =
        some (.str ((appendPathToUrl options.iss env.kid).toString)) ∧
      res.jwt.header.kid = some env.kid ∧
      (∀ k, k ≠ "sub" → k ≠ "iss" → k ≠ "aud" → k ≠ "exp" → k ≠ "ver" → k ≠ "iat" →
        getClaim res.jwt.payload k = getClaim claims k) := by
  have hkslash : strStartsWith env.kid "/" = false := uuidValidate_head_not_slash hkid
  have hkne : env.kid ≠ "" := uuidValidate_ne_empty hkid
  have happ : (appendPathToUrl options.iss env.kid).toString =
      issuerPfx options.iss ++ env.kid :=
    appendPath_toString_eq options.iss env.kid hsearch hhash hpath hkslash hkne
  have hvv : validateVersion (signedPayload claims options env) = .ok 1 := by
    simp only [validateVersion, signedPayload_ver claims options env]
    rfl
  have hvi : validateIssuer (getClaim (signedPayload claims options env) "iss")
      options.iss = .ok (env.kid, (appendPathToUrl options.iss env.kid).toString) := by
    rw [signedPayload_iss claims options env, happ]
    exact validateIssuer_minted options.iss env.kid hkid
  have hiat : checkIatClaim (signedPayload claims options env) = .ok () := by
    simp only [checkIatClaim, signedPayload_iat claims options env]
  have hnbfok : checkNbfClaim (signedPayload claims options env) now = .ok () := by
    have hnbfsp : getClaim (signedPayload claims options env) "nbf" =
        getClaim claims "nbf" :=
      signedPayload_extra claims options env "nbf" (by decide) (by decide)
        (by decide) (by decide) (by decide) (by decide)
    unfold checkNbfClaim
    rw [hnbfsp]
    rcases hnbf with h | ⟨n, hn, hle⟩
    · rw [h]
    · simp only [hn, if_neg (not_lt.mpr hle)]
  have hexpok : checkExpClaim (signedPayload claims options env) now = .ok () := by
    simp only [checkExpClaim, signedPayload_exp claims options env,
      if_neg (not_le.mpr hnow)]
  have hjv : jwtVerify (mintedResult claims options env).jwt
      (.ok (mintedResult claims options env).jwk) now =
      .ok (signedPayload claims options env) := by
    simp only [jwtVerify, mintedResult, hiat, hnbfok, hexpok]
    simp
  refine ⟨mintedResult claims options env,
    createApiKey_ok claims options env hexp hsub hkg, ?_,
    signedPayload_sub claims options env,
    signedPayload_aud claims options env,
    signedPayload_exp claims options env,
    signedPayload_ver claims options env,
    signedPayload_iss claims options env,
    rfl,
    fun k h1 h2 h3 h4 h5 h6 =>
      signedPayload_extra claims options env k h1 h2 h3 h4 h5 h6⟩
  show authenticate (.jwt (mintedResult claims options env).jwt)
      ⟨options.iss, fun _ _ => .ok (mintedResult claims options env).jwk, now⟩ =
    .ok (mintedResult claims options env).jwt.payload
  simp only [authenticate, decodeToken, mintedResult] at hjv ⊢
  simp only [hvv, hvi, validateKid]
  simp [hjv]

/-- Witness for C1 (amended): a concrete issuance with an extra `scopes`
claim, verified before its expiry. -/
theorem round_trip_witness :
    ∃ res, createApiKey exClaims exOpts exEnv = ⟨.ok res, true⟩ ∧
      authenticate (.jwt res.jwt) ⟨exOpts.iss, fun _ _ => .ok res.jwk, 1600000000⟩ =
        .ok res.jwt.payload ∧
      getClaim res.jwt.payload "sub" = some (.str exOpts.sub) ∧
      getClaim res.jwt.payload "aud" = some (.str exOpts.aud) ∧
      getClaim res.jwt.payload "exp" = some (.num (exOpts.expiresAt / 1000)) ∧
      getClaim res.jwt.payload "ver" = some (.str VER) ∧
      getClaim res.jwt.payload "iss" =
        some (.str ((appendPathToUrl exOpts.iss exEnv.kid).toString)) ∧
      res.jwt.header.kid = some exEnv.kid ∧
      (∀ k, k ≠ "sub" → k ≠ "iss" → k ≠ "aud" → k ≠ "exp" → k ≠ "ver" → k ≠ "iat" →
        getClaim res.jwt.payload k = getClaim exClaims k) :=
  round_trip exClaims exOpts exEnv 1600000000 (by decide) (by decide) rfl rfl
    (by decide) (by decide) rfl (by decide) (Or.inl rfl)
